import Mathlib

/-!
Verification of the order lifecycle and trade resolution engine.

Shallow embedding of `src/models/order.rs`, `src/models/trade.rs` and
`src/models/time_frame.rs` of the `rs_algo_shared` repository, together with
the small amount of surrounding context those modules use
(`scanner/candle.rs` from the sources; dates, identifiers, pricing, execution
mode and the stop-loss builder are modelled from the specification where the
corresponding files are not part of the sources).

Modelling conventions:
* `f64` prices are modelled as `ℚ`;
* timestamps (`DateTime<Local>` / `DbDateTime`) are modelled as `ℤ` minutes,
  so `to_dbtime` / `from_dbtime` are the identity and `Duration::minutes` is
  plain addition;
* every Rust function that can `panic!` or `unwrap` on user-reachable data is
  modelled as an `Option`-valued function, `none` standing for the panic;
* the environment-variable configuration read inside the Rust functions is
  gathered in an explicit `Cfg` record.
-/

namespace RsAlgo

/-- Modelled from the spec: timestamps (`helpers/date.rs` is not among the
sources); `DateTime<Local>` and `DbDateTime` are both collapsed to an integer
number of minutes. -/
abbrev Timestamp := Int

/-- Modelled from the spec: `uuid::generate_ts_id` (`helpers/uuid.rs` is not
among the sources) derives the time-derived unique identifier of an order or
bar from its timestamp. -/
def generate_ts_id (d : Timestamp) : Nat := d.toNat

/-- Modelled from the spec: `get_prev_index` (`helpers/calc.rs` is not among
the sources) yields the previous bar's index. -/
def get_prev_index (index : Nat) : Nat := index - 1

/-- Rust `TimeFrameType` (src/models/time_frame.rs). -/
inductive TimeFrameType where
  | MN | W | D | H4 | H1 | M30 | M15 | M5 | M1 | ERR
deriving DecidableEq

/-- Rust `TimeFrameType::to_number` (src/models/time_frame.rs). -/
def TimeFrameType.to_number : TimeFrameType → Int
  | .ERR => 0
  | .M1 => 1
  | .M5 => 5
  | .M15 => 15
  | .M30 => 30
  | .H1 => 60
  | .H4 => 240
  | .D => 1440
  | .W => 10080
  | .MN => 43200

/-- Rust `CandleType` (src/scanner/candle.rs). -/
inductive CandleType where
  | Default | Doji | Karakasa | BearishKarakasa | Marubozu | BearishMarubozu
  | Harami | BearishHarami | BearishStar | Engulfing | MorningStar
  | BearishEngulfing | HangingMan | BullishCrows | BearishCrows
  | BullishGap | BearishGap
deriving DecidableEq

/-- Rust `Candle` (src/scanner/candle.rs); the Rust field `open` is renamed to
`open_p` because `open` is a Lean keyword. -/
structure Candle where
  candle_type : CandleType
  date : Timestamp
  open_p : ℚ
  high : ℚ
  low : ℚ
  close : ℚ
  volume : ℚ
  is_closed : Bool
deriving DecidableEq

/-- Modelled from the spec: the instrument's candle window
(`scanner/instrument.rs` is not among the sources); only the ordered candle
sequence `data` is used by the order/trade modules. -/
structure Instrument where
  data : List Candle
deriving DecidableEq

/-- Modelled from the spec: the pricing snapshot (`models/pricing.rs` is not
among the sources): ask, bid, spread, pip size and percentage commission. -/
structure Pricing where
  ask : ℚ
  bid : ℚ
  spread : ℚ
  pip_size : ℚ
  percentage : ℚ
deriving DecidableEq

/-- Modelled from the spec: `ExecutionMode` (`models/mode.rs` is not among the
sources) is Backtest vs Live. -/
inductive ExecutionMode where
  | Backtest
  | Live
deriving DecidableEq

/-- Modelled from the spec: `ExecutionMode::is_back_test`. -/
def ExecutionMode.is_back_test : ExecutionMode → Bool
  | .Backtest => true
  | .Live => false

/-- Rust `OrderDirection` (src/models/order.rs). -/
inductive OrderDirection where
  | Up
  | Down
deriving DecidableEq

/-- Rust `OrderStatus` (src/models/order.rs). -/
inductive OrderStatus where
  | Pending
  | Fulfilled
  | Canceled
deriving DecidableEq

/-- Modelled from the spec: the stop-loss kind (`models/stop_loss.rs` is not
among the sources); its variants are irrelevant to the order module, so it is
modelled as a plain numeric tag. -/
structure StopLossType where
  tag : Nat
deriving DecidableEq

/-- Rust `OrderType` (src/models/order.rs): direction, quantity, target price. -/
inductive OrderType where
  | BuyOrderLong (direction : OrderDirection) (quantity target_price : ℚ)
  | BuyOrderShort (direction : OrderDirection) (quantity target_price : ℚ)
  | SellOrderLong (direction : OrderDirection) (quantity target_price : ℚ)
  | SellOrderShort (direction : OrderDirection) (quantity target_price : ℚ)
  | TakeProfitLong (direction : OrderDirection) (quantity target_price : ℚ)
  | TakeProfitShort (direction : OrderDirection) (quantity target_price : ℚ)
  | StopLoss (direction : OrderDirection) (kind : StopLossType)
deriving DecidableEq

/-- Rust `OrderType::is_long` (src/models/order.rs). -/
def OrderType.is_long : OrderType → Bool
  | .BuyOrderLong .. | .SellOrderLong .. | .TakeProfitLong .. => true
  | _ => false

/-- Rust `OrderType::is_entry` (src/models/order.rs). -/
def OrderType.is_entry : OrderType → Bool
  | .BuyOrderLong .. | .BuyOrderShort .. => true
  | _ => false

/-- Rust `OrderType::is_exit` (src/models/order.rs). -/
def OrderType.is_exit : OrderType → Bool
  | .SellOrderLong .. | .SellOrderShort .. | .TakeProfitLong .. | .TakeProfitShort .. => true
  | _ => false

/-- Rust `OrderType::is_stop` (src/models/order.rs). -/
def OrderType.is_stop : OrderType → Bool
  | .StopLoss .. => true
  | _ => false

/-- Accessor for the `OrderDirection` carried by every `OrderType` variant
(each Rust variant stores its direction in its first slot). -/
def OrderType.direction : OrderType → OrderDirection
  | .BuyOrderLong d _ _ => d
  | .BuyOrderShort d _ _ => d
  | .SellOrderLong d _ _ => d
  | .SellOrderShort d _ _ => d
  | .TakeProfitLong d _ _ => d
  | .TakeProfitShort d _ _ => d
  | .StopLoss d _ => d

/-- Rust `Order` (src/models/order.rs). -/
structure Order where
  id : Nat
  trade_id : Nat
  index_created : Nat
  index_fulfilled : Nat
  order_type : OrderType
  status : OrderStatus
  origin_price : ℚ
  target_price : ℚ
  quantity : ℚ
  created_at : Timestamp
  updated_at : Option Timestamp
  full_filled_at : Option Timestamp
  valid_until : Option Timestamp
deriving DecidableEq

/-- Rust `Order::cancel_order` (src/models/order.rs): sets the status to
`Canceled` and records the update time. -/
def Order.cancel_order (o : Order) (date : Timestamp) : Order :=
  { o with status := OrderStatus.Canceled, updated_at := some date }

/-- The environment-variable configuration read by the order/trade modules
(`TIME_FRAME`, `VALID_UNTIL_BARS`, `MAX_BUY_ORDERS`, `MAX_SELL_ORDERS`,
`MAX_STOP_LOSSES`, `MAX_PENDING_ORDERS`, `OVERWRITE_ORDERS`,
`NON_PROFITABLE_OUTS`, `ORDER_ENGINE`, `EXECUTION_MODE`), gathered into one
record. -/
structure Cfg where
  time_frame : TimeFrameType
  valid_until_bars : Int
  max_buy_orders : Nat
  max_sell_orders : Nat
  max_stop_losses : Nat
  max_pending_orders : Nat
  overwrite_orders : Bool
  non_profitable_outs : Bool
  order_engine : String
  execution_mode : ExecutionMode
deriving DecidableEq

/-- Rust `order_activated` (src/models/order.rs, lines 380-422): decides
whether a pending order is triggered on bar `index`.  `none` models the
`unwrap` panic when a referenced candle is missing. -/
def order_activated (index : Nat) (order : Order) (instrument : Instrument)
    (pricing : Pricing) : Option Bool :=
  match instrument.data.get? index, instrument.data.get? (get_prev_index index) with
  | some current_candle, some prev_candle =>
    let is_next_order : Bool := decide (order.index_fulfilled < index)
    let cross_over : Bool :=
      decide (order.target_price ≤ current_candle.high) &&
      decide (prev_candle.high < current_candle.high) && is_next_order
    let cross_bellow : Bool :=
      decide (current_candle.low ≤ order.target_price) &&
      decide (current_candle.low < prev_candle.low) && is_next_order
    let activated :=
      match order.order_type with
      | .BuyOrderLong direction _ _ | .BuyOrderShort direction _ _ =>
        match direction with
        | .Up => cross_over
        | .Down => cross_bellow
      | .SellOrderLong direction _ _ | .SellOrderShort direction _ _
      | .TakeProfitLong direction _ _ | .TakeProfitShort direction _ _ =>
        match direction with
        | .Up => cross_over
        | .Down => cross_bellow
      | .StopLoss direction _ =>
        match direction with
        | .Up => cross_over
        | .Down => cross_bellow
    some activated
  | _, _ => none

/-- Rust `TradeType` (src/models/trade.rs). -/
inductive TradeType where
  | MarketInLong | MarketOutLong | MarketInShort | MarketOutShort
  | OrderInLong | OrderOutLong | OrderInShort | OrderOutShort
  | StopLossLong | StopLossShort | None
deriving DecidableEq

/-- Rust `TradeType::is_long` (src/models/trade.rs). -/
def TradeType.is_long : TradeType → Bool
  | .MarketInLong | .MarketOutLong | .StopLossLong | .OrderInLong | .OrderOutLong => true
  | _ => false

/-- Rust `TradeType::is_entry` (src/models/trade.rs). -/
def TradeType.is_entry : TradeType → Bool
  | .MarketInLong | .MarketInShort | .OrderInLong | .OrderInShort => true
  | _ => false

/-- Rust `TradeType::is_exit` (src/models/trade.rs). -/
def TradeType.is_exit : TradeType → Bool
  | .MarketOutLong | .MarketOutShort | .OrderOutLong
  | .StopLossLong | .StopLossShort | .OrderOutShort => true
  | _ => false

/-- Rust `TradeType::is_stop` (src/models/trade.rs). -/
def TradeType.is_stop : TradeType → Bool
  | .StopLossLong | .StopLossShort => true
  | _ => false

/-- Rust `validate_target_price` (src/models/order.rs, lines 263-294): for an
`Up` order the target must be strictly above the current close, for a `Down`
order strictly below; on violation the Rust code logs and `panic!`s (the
`false` after the panic is unreachable), modelled as `none`. -/
def validate_target_price (direction : OrderDirection) (close_price target_price : ℚ) :
    Option Bool :=
  match direction with
  | .Up => if target_price ≤ close_price then none else some true
  | .Down => if close_price ≤ target_price then none else some true

/-- Rust `create_order` (src/models/order.rs, lines 296-332): builds a pending
order dated from the next bar; `none` models the `unwrap` panics when the
candles at `index` / `index + 1` are missing. -/
def create_order (cfg : Cfg) (index : Nat) (trade_id : Nat) (instrument : Instrument)
    (order_type : OrderType) (target_price quantity : ℚ) : Option Order :=
  match instrument.data.get? (index + 1), instrument.data.get? index with
  | some next_candle, some origin_candle =>
    some
      { id := generate_ts_id next_candle.date
        trade_id := trade_id
        index_created := index + 1
        index_fulfilled := 0
        order_type := order_type
        status := OrderStatus.Pending
        origin_price := origin_candle.close
        target_price := target_price
        quantity := quantity
        created_at := next_candle.date
        updated_at := none
        full_filled_at := none
        valid_until := some (next_candle.date + cfg.time_frame.to_number * cfg.valid_until_bars) }
  | _, _ => none

/-- Modelled from the spec: `create_stop_loss_order` lives in
`models/stop_loss.rs`, which is not among the sources.  It builds a
`StopLoss(direction, kind)` order whose target price is computed from pricing
data and the reference price it is handed; the spec does not fix that formula,
so the computed stop target is abstracted as the function argument `slTarget`
applied to the reference price.  The bookkeeping fields mirror `create_order`;
a stop-loss order carries no quantity of its own, so `0` is used. -/
def create_stop_loss_order (slTarget : ℚ → ℚ) (cfg : Cfg) (index trade_id : Nat)
    (instrument : Instrument) (pricing : Pricing) (trade_type : TradeType)
    (direction : OrderDirection) (kind : StopLossType) (target_price : ℚ) : Option Order :=
  create_order cfg index trade_id instrument (OrderType.StopLoss direction kind)
    (slTarget target_price) 0

/-- The mutable locals of Rust `prepare_orders` (src/models/order.rs,
lines 151-158): the running entry / exit / stop target trackers, the stop-loss
flags and the accumulated order batch. -/
structure PrepareState where
  buy_order_target : ℚ
  sell_order_target : ℚ
  stop_order_target : ℚ
  is_stop_loss : Bool
  stop_loss_direction : OrderDirection
  orders : List Order
deriving DecidableEq

/-- Initial `PrepareState` of Rust `prepare_orders`. -/
def initPrepareState : PrepareState :=
  { buy_order_target := 0, sell_order_target := 0, stop_order_target := 0
    is_stop_loss := false, stop_loss_direction := OrderDirection.Up, orders := [] }

/-- One non-stop-loss iteration of the `prepare_orders` loop
(src/models/order.rs, lines 162-185): validate the target price (panics on
violation), create the order, record its target in the entry or exit tracker
and push it. -/
def prepare_plain_step (cfg : Cfg) (index trade_id : Nat) (instrument : Instrument)
    (close_price : ℚ) (oty : OrderType) (direction : OrderDirection)
    (quantity target_price : ℚ) (st : PrepareState) : Option PrepareState :=
  match validate_target_price direction close_price target_price with
  | none => none
  | some v =>
    if v then
      match create_order cfg index trade_id instrument oty target_price quantity with
      | none => none
      | some order =>
        match oty.is_entry with
        | true => some { st with buy_order_target := order.target_price
                                 orders := st.orders ++ [order] }
        | false => some { st with sell_order_target := order.target_price
                                  orders := st.orders ++ [order] }
    else
      some st

/-- One stop-loss iteration of the `prepare_orders` loop
(src/models/order.rs, lines 186-210): flag the stop-loss, derive the reference
price from the first accepted order (else from the last candle's open), build
the stop-loss order and keep it only if its target validates. -/
def prepare_stop_step (slTarget : ℚ → ℚ) (cfg : Cfg) (index trade_id : Nat)
    (instrument : Instrument) (pricing : Pricing) (trade_type : TradeType)
    (close_price : ℚ) (direction : OrderDirection) (kind : StopLossType)
    (st : PrepareState) : Option PrepareState :=
  match (match st.orders.head? with
         | some order => some order.target_price
         | none => (instrument.data.getLast?).map Candle.open_p) with
  | none => none
  | some target_price =>
    match create_stop_loss_order slTarget cfg index trade_id instrument pricing
        trade_type direction kind target_price with
    | none => none
    | some stop_loss =>
      match validate_target_price direction close_price stop_loss.target_price with
      | none => none
      | some v =>
        if v then
          some { st with is_stop_loss := true
                         stop_order_target := stop_loss.target_price
                         stop_loss_direction := direction
                         orders := st.orders ++ [stop_loss] }
        else
          some { st with is_stop_loss := true }

/-- One iteration of the `for order_type in order_types` loop of Rust
`prepare_orders` (src/models/order.rs, lines 160-212): dispatch on the
proposed order type. -/
def prepare_one (slTarget : ℚ → ℚ) (cfg : Cfg) (index trade_id : Nat)
    (instrument : Instrument) (pricing : Pricing) (trade_type : TradeType)
    (close_price : ℚ) (oty : OrderType) (st : PrepareState) : Option PrepareState :=
  match oty with
  | .BuyOrderLong direction quantity target_price
  | .BuyOrderShort direction quantity target_price
  | .SellOrderLong direction quantity target_price
  | .SellOrderShort direction quantity target_price
  | .TakeProfitLong direction quantity target_price
  | .TakeProfitShort direction quantity target_price =>
    prepare_plain_step cfg index trade_id instrument close_price oty direction
      quantity target_price st
  | .StopLoss direction kind =>
    prepare_stop_step slTarget cfg index trade_id instrument pricing trade_type
      close_price direction kind st

/-- The `for order_type in order_types` loop of Rust `prepare_orders`
(src/models/order.rs, lines 160-212). -/
def prepare_orders_loop (slTarget : ℚ → ℚ) (cfg : Cfg) (index trade_id : Nat)
    (instrument : Instrument) (pricing : Pricing) (trade_type : TradeType)
    (close_price : ℚ) : List OrderType → PrepareState → Option PrepareState
  | [], st => some st
  | oty :: rest, st =>
    match prepare_one slTarget cfg index trade_id instrument pricing trade_type
        close_price oty st with
    | none => none
    | some st' =>
      prepare_orders_loop slTarget cfg index trade_id instrument pricing trade_type
        close_price rest st'

/-- The `CHECK STOP LOSS` block of Rust `prepare_orders` (src/models/order.rs,
lines 214-236): a stop-loss on the wrong side of the tracked entry target
empties the whole batch. -/
def stop_loss_check (st : PrepareState) : List Order :=
  if st.is_stop_loss then
    match st.stop_loss_direction with
    | .Down =>
      if st.buy_order_target ≤ st.stop_order_target ∧ 0 < st.buy_order_target then []
      else st.orders
    | .Up =>
      if st.stop_order_target ≤ st.buy_order_target ∧ 0 < st.buy_order_target then []
      else st.orders
  else st.orders

/-- The `CHECK SELL ORDER VALUE` block of Rust `prepare_orders`
(src/models/order.rs, lines 238-258): an exit target on the wrong side of the
tracked entry target empties the whole batch. -/
def sell_order_check (trade_type : TradeType) (st : PrepareState)
    (orders : List Order) : List Order :=
  match trade_type.is_long with
  | true =>
    if st.sell_order_target ≤ st.buy_order_target ∧ 0 < st.sell_order_target then []
    else orders
  | false =>
    if st.buy_order_target ≤ st.sell_order_target ∧ 0 < st.sell_order_target then []
    else orders

/-- Rust `prepare_orders` (src/models/order.rs, lines 144-261): validate and
build the proposed batch, then run the stop-loss and exit-ordering batch
checks.  `none` models the `unwrap` / `panic!` paths. -/
def prepare_orders (slTarget : ℚ → ℚ) (cfg : Cfg) (index : Nat)
    (instrument : Instrument) (pricing : Pricing) (trade_type : TradeType)
    (order_types : List OrderType) : Option (List Order) :=
  match instrument.data.get? index, instrument.data.get? (index + 1) with
  | some current_candle, some next_candle =>
    match prepare_orders_loop slTarget cfg index (generate_ts_id next_candle.date)
        instrument pricing trade_type current_candle.close order_types
        initPrepareState with
    | none => none
    | some st => some (sell_order_check trade_type st (stop_loss_check st))
  | _, _ => none

/-- The recency window shared by `get_num_pending_orders` and `get_pending`
(src/models/order.rs): the most recent `max_pending_orders` entries of the
ledger, restricted to `Pending` status. -/
def pending_window (cfg : Cfg) (orders : List Order) : List Order :=
  (orders.reverse.take cfg.max_pending_orders).filter
    (fun x => decide (x.status = OrderStatus.Pending))

/-- Rust `get_num_pending_orders` (src/models/order.rs, lines 508-533): the
(buy, sell/take-profit, stop-loss) counts over the pending window. -/
def get_num_pending_orders (cfg : Cfg) (orders : List Order) : Nat × Nat × Nat :=
  ((pending_window cfg orders).countP (fun o => o.order_type.is_entry),
   (pending_window cfg orders).countP (fun o => o.order_type.is_exit),
   (pending_window cfg orders).countP (fun o => o.order_type.is_stop))

/-- Rust `get_pending` (src/models/order.rs, lines 472-485). -/
def get_pending (cfg : Cfg) (orders : List Order) : List Order :=
  pending_window cfg orders

/-- The filtered batch built inside Rust `add_pending` (src/models/order.rs,
lines 449-463): pending proposed orders whose category count over the existing
ledger is below its ceiling. -/
def add_pending_result (cfg : Cfg) (orders new_orders : List Order) : List Order :=
  (new_orders.filter (fun order => decide (order.status = OrderStatus.Pending))).filter
    (fun order =>
      match order.order_type with
      | .BuyOrderLong .. | .BuyOrderShort .. =>
        decide ((get_num_pending_orders cfg orders).1 < cfg.max_buy_orders)
      | .SellOrderLong .. | .SellOrderShort ..
      | .TakeProfitLong .. | .TakeProfitShort .. =>
        decide ((get_num_pending_orders cfg orders).2.1 < cfg.max_sell_orders)
      | .StopLoss .. =>
        decide ((get_num_pending_orders cfg orders).2.2 < cfg.max_stop_losses))

/-- Rust `add_pending` (src/models/order.rs, lines 424-470): append the
filtered batch if it fits below `max_pending_orders` on its own, otherwise
return the ledger unchanged. -/
def add_pending (cfg : Cfg) (orders new_orders : List Order) : List Order :=
  if (add_pending_result cfg orders new_orders).length ≤ cfg.max_pending_orders then
    orders ++ add_pending_result cfg orders new_orders
  else orders

/-- The per-order body of the `cancel_all_pending_orders` traversals
(src/models/order.rs, lines 542-551 and 676-685): an expired pending order is
marked `Canceled`, stamped with the wall-clock time `now` (`Local::now()` in
the Rust code); every other order is returned unchanged.  `none` models the
`unwrap` panic on an order without `valid_until`. -/
def cancel_pending_step (now current_date : Timestamp) (x : Order) : Option Order :=
  match x.valid_until with
  | none => none
  | some valid_until =>
    if valid_until ≤ current_date ∧ x.status = OrderStatus.Pending then
      some (x.cancel_order now)
    else
      some x

/-- The fallible element-wise map underlying the cancellation traversals
(`iter_mut().map(...).collect()` over per-order bodies that can panic). -/
def mapMo (f : Order → Option Order) : List Order → Option (List Order)
  | [] => some []
  | a :: l =>
    match f a, mapMo f l with
    | some b, some bs => some (b :: bs)
    | _, _ => none

/-- Rust `cancel_all_pending_orders` (src/models/order.rs, lines 535-564): the
current date is taken from the bar at `index`; despite its name and the
commented-out `retain`, the Rust function only marks expired pending orders —
it removes nothing.  `none` models the `unwrap` panics. -/
def cancel_all_pending_orders (now : Timestamp) (index : Nat)
    (instrument : Instrument) (orders : List Order) : Option (List Order) :=
  match instrument.data.get? index with
  | none => none
  | some current_candle => mapMo (cancel_pending_step now current_candle.date) orders

/-- Rust `cancel_all_bot_pending_orders` (src/models/order.rs, lines 673-698):
the live-mode variant; the current date is the wall clock itself. -/
def cancel_all_bot_pending_orders (now : Timestamp) (orders : List Order) :
    Option (List Order) :=
  mapMo (cancel_pending_step now now) orders

/-- Rust `Position` (src/models/trade.rs). -/
inductive Position where
  | MarketIn (otys : Option (List OrderType))
  | MarketOut (otys : Option (List OrderType))
  | MarketInOrder (order : Order)
  | MarketOutOrder (order : Order)
  | Order (otys : List OrderType)
  | None
deriving DecidableEq

/-- The `for (_id, order) in orders.iter()...` loop of Rust
`resolve_active_orders` (src/models/order.rs, lines 340-370): each activated
pending order overwrites the running position. -/
def active_orders_loop (index : Nat) (instrument : Instrument) (pricing : Pricing) :
    List Order → Position → Option Position
  | [], pos => some pos
  | order :: rest, pos =>
    if order.status = OrderStatus.Pending then
      match order_activated index order instrument pricing with
      | none => none
      | some activated =>
        active_orders_loop index instrument pricing rest
          (if activated then
            match order.order_type with
            | .BuyOrderLong .. | .BuyOrderShort .. => Position.MarketInOrder order
            | .SellOrderLong .. | .SellOrderShort ..
            | .TakeProfitLong .. | .TakeProfitShort .. => Position.MarketOutOrder order
            | .StopLoss .. => Position.MarketOutOrder order
          else pos)
    else
      active_orders_loop index instrument pricing rest pos

/-- Rust `has_executed_buy_order` (src/models/order.rs, lines 487-506): a
`MarketOutOrder` position reports an active buy unless the pending-buy count
compares `Equal` to `max_buy_orders`; every other position reports `true`. -/
def has_executed_buy_order (cfg : Cfg) (orders : List Order) (operation : Position) :
    Bool :=
  let pending_buy_orders := (get_num_pending_orders cfg orders).1
  match operation with
  | Position.MarketOutOrder _ => !(decide (pending_buy_orders = cfg.max_buy_orders))
  | _ => true

/-- Rust `resolve_active_orders` (src/models/order.rs, lines 334-378): run the
activation loop over the ledger, then gate the result through
`has_executed_buy_order`. -/
def resolve_active_orders (cfg : Cfg) (index : Nat) (instrument : Instrument)
    (orders : List Order) (pricing : Pricing) : Option Position :=
  match active_orders_loop index instrument pricing orders Position.None with
  | none => none
  | some order_position =>
    match has_executed_buy_order cfg orders order_position with
    | true => some order_position
    | false => some Position.None

/-- Rust `TradeIn` (src/models/trade.rs). -/
structure TradeIn where
  id : Nat
  index_in : Nat
  quantity : ℚ
  origin_price : ℚ
  price_in : ℚ
  ask : ℚ
  spread : ℚ
  date_in : Timestamp
  trade_type : TradeType
deriving DecidableEq

/-- Rust `TradeOut` (src/models/trade.rs). -/
structure TradeOut where
  id : Nat
  trade_type : TradeType
  index_in : Nat
  price_in : ℚ
  ask : ℚ
  spread_in : ℚ
  date_in : Timestamp
  index_out : Nat
  price_origin : ℚ
  price_out : ℚ
  bid : ℚ
  spread_out : ℚ
  date_out : Timestamp
  profit : ℚ
  profit_per : ℚ
  run_up : ℚ
  run_up_per : ℚ
  draw_down : ℚ
  draw_down_per : ℚ
deriving DecidableEq

/-- Rust `TradeResult` (src/models/trade.rs). -/
inductive TradeResult where
  | TradeIn (t : TradeIn)
  | TradeOut (t : TradeOut)
  | None
deriving DecidableEq

/-- Whether a `TradeResult` carries a realized exit. -/
def TradeResult.is_trade_out : TradeResult → Bool
  | .TradeOut _ => true
  | _ => false

/-- Rust `calculate_trade_index` (src/models/trade.rs, lines 457-466): backtest
fills land on the next bar. -/
def calculate_trade_index (index : Nat) (order : Option Order)
    (execution_mode : ExecutionMode) : Nat :=
  let _ := order
  match execution_mode.is_back_test with
  | true => index + 1
  | false => index

/-- Modelled from the spec: `calc::calculate_profit` (`helpers/calc.rs` is not
among the sources); realized profit is the directional price difference scaled
by the quantity. -/
def calculate_profit (quantity price_in price_out : ℚ) (trade_in_type : TradeType) : ℚ :=
  match trade_in_type.is_long with
  | true => quantity * (price_out - price_in)
  | false => quantity * (price_in - price_out)

/-- Modelled from the spec: `calc::calculate_profit_per` (`helpers/calc.rs` is
not among the sources); the profit percentage is the directional price
difference relative to `price_in`, scaled to percent. -/
def calculate_profit_per (price_in price_out : ℚ) (trade_in_type : TradeType) : ℚ :=
  match trade_in_type.is_long with
  | true => 100 * (price_out - price_in) / price_in
  | false => 100 * (price_in - price_out) / price_in

/-- The closed price path between the entry and exit indices, inclusive. -/
def holding_closes (data : List Candle) (index_in index : Nat) : List ℚ :=
  ((data.drop index_in).take (index - index_in + 1)).map Candle.close

/-- Modelled from the spec: `calc::calculate_runup` (`helpers/calc.rs` is not
among the sources); the best excursion relative to `price_in` over the holding
window, floored at zero. -/
def calculate_runup (data : List Candle) (price_in : ℚ) (index_in index : Nat)
    (trade_in_type : TradeType) : ℚ :=
  (holding_closes data index_in index).foldl
    (fun acc c =>
      match trade_in_type.is_long with
      | true => max acc (c - price_in)
      | false => max acc (price_in - c)) 0

/-- Modelled from the spec: `calc::calculate_runup_per`. -/
def calculate_runup_per (run_up price_in : ℚ) (trade_in_type : TradeType) : ℚ :=
  let _ := trade_in_type
  100 * run_up / price_in

/-- Modelled from the spec: `calc::calculate_drawdown` (`helpers/calc.rs` is
not among the sources); the worst excursion relative to `price_in` over the
holding window, floored at zero. -/
def calculate_drawdown (data : List Candle) (price_in : ℚ) (index_in index : Nat)
    (trade_in_type : TradeType) : ℚ :=
  (holding_closes data index_in index).foldl
    (fun acc c =>
      match trade_in_type.is_long with
      | true => max acc (price_in - c)
      | false => max acc (c - price_in)) 0

/-- Modelled from the spec: `calc::calculate_drawdown_per`. -/
def calculate_drawdown_per (draw_down price_in : ℚ) (trade_in_type : TradeType) : ℚ :=
  let _ := trade_in_type
  100 * draw_down / price_in

/-- The `close_trade_price` selection of Rust `resolve_trade_out`
(src/models/trade.rs, lines 341-344): stop-loss exits price at the triggering
order's target (`none` models the `unwrap` panic when that order is absent),
every other exit at the current bar's open. -/
def stop_close_price (trade_type : TradeType) (order : Option Order)
    (current_candle : Candle) : Option ℚ :=
  match trade_type with
  | .StopLossLong | .StopLossShort => order.map (fun o => o.target_price)
  | _ => some current_candle.open_p

/-- The `price_out` selection of Rust `resolve_trade_out`
(src/models/trade.rs, lines 346-352): under the "broker" order engine a
supplied order's target wins, otherwise the close price stands. -/
def broker_price_out (cfg : Cfg) (order : Option Order)
    (close_trade_price : ℚ) : ℚ :=
  match cfg.order_engine with
  | "broker" =>
    match order with
    | some o => o.target_price
    | none => close_trade_price
  | _ => close_trade_price

/-- The mode-dependent spread adjustment of Rust `resolve_trade_out`
(src/models/trade.rs, lines 354-360): in backtest mode a short position's
exit pays the spread. -/
def mode_adjusted_prices (cfg : Cfg) (pricing : Pricing) (trade_in : TradeIn)
    (price_out : ℚ) : ℚ × ℚ :=
  match cfg.execution_mode.is_back_test with
  | true =>
    match trade_in.trade_type.is_long with
    | true => (trade_in.price_in, price_out)
    | false => (trade_in.price_in, price_out + pricing.spread)
  | false => (trade_in.price_in, price_out)

/-- The pricing prefix of Rust `resolve_trade_out` (src/models/trade.rs,
lines 323-360): the close/fill price selection and the mode-dependent spread
adjustment, yielding the `(price_in, price_out)` pair used both for the
profit gate and for the returned trade.  `none` models the `unwrap` panics
(missing candle at the computed index; missing triggering order for a
stop-loss exit). -/
def trade_out_prices (cfg : Cfg) (index : Nat) (instrument : Instrument)
    (pricing : Pricing) (trade_in : TradeIn) (trade_type : TradeType)
    (order : Option Order) : Option (ℚ × ℚ) :=
  match instrument.data.get? (calculate_trade_index index order cfg.execution_mode) with
  | none => none
  | some current_candle =>
    match stop_close_price trade_type order current_candle with
    | none => none
    | some close_trade_price =>
      some (mode_adjusted_prices cfg pricing trade_in
        (broker_price_out cfg order close_trade_price))

/-- The directional gross profit over a `(price_in, price_out)` pair
(src/models/trade.rs, lines 368-371). -/
def directional_profit (trade_in_type : TradeType) (prices : ℚ × ℚ) : ℚ :=
  match trade_in_type.is_long with
  | true => prices.2 - prices.1
  | false => prices.1 - prices.2

/-- The directional gross profit computed by Rust `resolve_trade_out` and
used by its profitability gate. -/
def trade_out_profit (cfg : Cfg) (index : Nat) (instrument : Instrument)
    (pricing : Pricing) (trade_in : TradeIn) (trade_type : TradeType)
    (order : Option Order) : Option ℚ :=
  (trade_out_prices cfg index instrument pricing trade_in trade_type order).map
    (directional_profit trade_in.trade_type)

/-- The `profit_check` gate of Rust `resolve_trade_out`
(src/models/trade.rs, lines 387-390): with `non_profitable_outs` set every
exit passes; otherwise only profitable exits and stop-loss exits pass. -/
def trade_out_gate (cfg : Cfg) (trade_in : TradeIn) (trade_type : TradeType)
    (prices : ℚ × ℚ) : Bool :=
  match cfg.non_profitable_outs with
  | true => true || trade_type.is_stop
  | false => decide (0 < directional_profit trade_in.trade_type prices) || trade_type.is_stop

/-- Rust `resolve_trade_out` (src/models/trade.rs, lines 315-455): compute the
exit pricing, gate on profitability (stop-loss exits always pass), and build
the `TradeOut` record — with the realized aggregates computed only in backtest
mode.  `none` models the `unwrap` panics. -/
def resolve_trade_out (cfg : Cfg) (index : Nat) (instrument : Instrument)
    (pricing : Pricing) (trade_in : TradeIn) (trade_type : TradeType)
    (order : Option Order) : Option TradeResult :=
  match instrument.data.get? (calculate_trade_index index order cfg.execution_mode) with
  | none => none
  | some current_candle =>
    match trade_out_prices cfg index instrument pricing trade_in trade_type order with
    | none => none
    | some prices =>
      if trade_out_gate cfg trade_in trade_type prices then
        match (match cfg.execution_mode.is_back_test with
               | true => (instrument.data.get? trade_in.index_in).map Candle.date
               | false => some current_candle.date) with
        | none => none
        | some date_in =>
          let price_in := prices.1
          let price_out := prices.2
          let trade_in_type := trade_in.trade_type
          let index' := calculate_trade_index index order cfg.execution_mode
          some (TradeResult.TradeOut
            { id := generate_ts_id current_candle.date
              index_in := trade_in.index_in
              price_in := price_in
              trade_type := trade_type
              date_in := date_in
              spread_in := trade_in.spread
              ask := price_in
              index_out := index'
              price_origin := trade_in.price_in
              price_out := price_out
              bid :=
                match trade_type.is_long with
                | true => price_out + pricing.spread
                | false => price_out
              spread_out := pricing.spread
              date_out := current_candle.date
              profit :=
                match cfg.execution_mode.is_back_test with
                | true => calculate_profit trade_in.quantity price_in price_out trade_in_type
                | false => 0
              profit_per :=
                match cfg.execution_mode.is_back_test with
                | true => calculate_profit_per price_in price_out trade_in_type
                | false => 0
              run_up :=
                match cfg.execution_mode.is_back_test with
                | true => calculate_runup instrument.data price_in trade_in.index_in index' trade_in_type
                | false => 0
              run_up_per :=
                match cfg.execution_mode.is_back_test with
                | true =>
                  calculate_runup_per
                    (calculate_runup instrument.data price_in trade_in.index_in index' trade_in_type)
                    price_in trade_in_type
                | false => 0
              draw_down :=
                match cfg.execution_mode.is_back_test with
                | true => calculate_drawdown instrument.data price_in trade_in.index_in index' trade_in_type
                | false => 0
              draw_down_per :=
                match cfg.execution_mode.is_back_test with
                | true =>
                  calculate_drawdown_per
                    (calculate_drawdown instrument.data price_in trade_in.index_in index' trade_in_type)
                    price_in trade_in_type
                | false => 0 })
      else
        some TradeResult.None

/-! ## Concrete fixtures used by the counterexamples and witnesses -/

/-- A pricing snapshot with zero spread. -/
def exPricing : Pricing :=
  { ask := 0, bid := 0, spread := 0, pip_size := 0, percentage := 0 }

/-- Candle constructor for fixtures. -/
def mkCandle (d : Timestamp) (o h l c : ℚ) : Candle :=
  { candle_type := CandleType.Default, date := d, open_p := o, high := h, low := l
    close := c, volume := 0, is_closed := true }

/-- Baseline configuration for fixtures. -/
def exCfg : Cfg :=
  { time_frame := TimeFrameType.M1, valid_until_bars := 0
    max_buy_orders := 1, max_sell_orders := 1, max_stop_losses := 1
    max_pending_orders := 10, overwrite_orders := false
    non_profitable_outs := false, order_engine := "bot"
    execution_mode := ExecutionMode.Backtest }

/-- The claim's cross-over predicate, following the spec's words: the current
bar's high reaches the target and the previous bar's high was below the
target. -/
def spec_cross_over (target cur_high prev_high : ℚ) : Bool :=
  decide (target ≤ cur_high) && decide (prev_high < target)

/-- A pending `Up` entry order with target `110`, created from the bar dated
`20` (so `id = 20`, `index_created = 1`), as in the spec's Scenario A. -/
def scOrder : Order :=
  { id := 20, trade_id := 20, index_created := 1, index_fulfilled := 0
    order_type := OrderType.BuyOrderLong OrderDirection.Up 1 110
    status := OrderStatus.Pending, origin_price := 100, target_price := 110
    quantity := 1, created_at := 20, updated_at := none, full_filled_at := none
    valid_until := some 1000 }

/-- Candle window for the C1 counterexample: the previous bar's high `110`
already sits at the target, the current bar's high is `111`. -/
def c1Inst : Instrument :=
  ⟨[mkCandle 10 100 110 90 100, mkCandle 20 100 111 95 105]⟩

/-- Candle window for the C2 counterexample: the order's creation bar (index 1,
dated `20`) itself crosses the target. -/
def c2Inst : Instrument :=
  ⟨[mkCandle 10 100 100 90 100, mkCandle 20 100 111 95 105]⟩

/-- Scenario A candle window: bar 10 (close 100), bar 11 (high 105),
bar 12 (high 111). -/
def scInst : Instrument :=
  ⟨[mkCandle 10 100 100 90 100, mkCandle 20 100 105 95 101,
    mkCandle 30 100 111 95 102]⟩

/-- The candle used by the `prepare_orders` fixtures: close `100`. -/
def c4candle : Candle := mkCandle 0 100 100 90 100

/-- Two-bar window for the `prepare_orders` fixtures. -/
def c4inst : Instrument := ⟨[c4candle, c4candle]⟩

/-- Stop-target model for the C4 counterexample: the stop lands at `120`. -/
def c4sl (q : ℚ) : ℚ := let _ := q; 120

/-- Proposed batch for the C4 counterexample: a long entry at `110` with an
`Up` stop-loss. -/
def c4otys : List OrderType :=
  [OrderType.BuyOrderLong OrderDirection.Up 1 110,
   OrderType.StopLoss OrderDirection.Up ⟨0⟩]

/-- The entry order `prepare_orders` builds for the C4 counterexample. -/
def c4buy : Order :=
  { id := 0, trade_id := 0, index_created := 1, index_fulfilled := 0
    order_type := OrderType.BuyOrderLong OrderDirection.Up 1 110
    status := OrderStatus.Pending, origin_price := 100, target_price := 110
    quantity := 1, created_at := 0, updated_at := none, full_filled_at := none
    valid_until := some 0 }

/-- The stop-loss order `prepare_orders` builds for the C4 counterexample. -/
def c4stop : Order :=
  { c4buy with order_type := OrderType.StopLoss OrderDirection.Up ⟨0⟩
               target_price := 120, quantity := 0 }

/-- Stop-target model for the C4 witness: the stop lands at `97`. -/
def w4sl (q : ℚ) : ℚ := let _ := q; 97

/-- Proposed batch for the C4 witness: a `Down` entry at `95` with a `Down`
stop-loss above it. -/
def w4otys : List OrderType :=
  [OrderType.BuyOrderLong OrderDirection.Down 1 95,
   OrderType.StopLoss OrderDirection.Down ⟨0⟩]

/-- The entry order `prepare_orders` builds for the C4 witness. -/
def w4buy : Order :=
  { c4buy with order_type := OrderType.BuyOrderLong OrderDirection.Down 1 95
               target_price := 95 }

/-- The stop-loss order `prepare_orders` builds for the C4 witness. -/
def w4stop : Order :=
  { c4buy with order_type := OrderType.StopLoss OrderDirection.Down ⟨0⟩
               target_price := 97, quantity := 0 }

/-- The loop state `prepare_orders` reaches on the C4 witness input. -/
def w4st : PrepareState :=
  { buy_order_target := 95, sell_order_target := 0, stop_order_target := 97
    is_stop_loss := true, stop_loss_direction := OrderDirection.Down
    orders := [w4buy, w4stop] }

/-- A pending buy entry for the ledger fixtures. -/
def pendBuy : Order :=
  { id := 1, trade_id := 0, index_created := 0, index_fulfilled := 0
    order_type := OrderType.BuyOrderLong OrderDirection.Up 1 110
    status := OrderStatus.Pending, origin_price := 100, target_price := 110
    quantity := 1, created_at := 0, updated_at := none, full_filled_at := none
    valid_until := some 0 }

/-- A second pending buy entry. -/
def pendBuy2 : Order := { pendBuy with id := 2 }

/-- A pending stop-loss for the ledger fixtures. -/
def pendStop : Order :=
  { pendBuy with id := 3
                 order_type := OrderType.StopLoss OrderDirection.Down ⟨0⟩
                 target_price := 90, quantity := 0 }

/-- Configuration for the C5 fixtures: the window and every ceiling is `1`. -/
def c5cfg : Cfg :=
  { exCfg with max_pending_orders := 1 }

/-- Configuration for the C5 witness: the window ceiling is `0`. -/
def c5wcfg : Cfg :=
  { exCfg with max_pending_orders := 0 }

/-- Configuration for the C6 fixtures: one buy allowed, ample room elsewhere. -/
def c6cfg : Cfg :=
  { exCfg with max_sell_orders := 5, max_stop_losses := 5 }

/-- Batch of two pending buys for the C6 counterexample. -/
def c6new : List Order := [pendBuy, pendBuy2]

/-- An expired pending order for the C7 fixtures (`valid_until = 5`). -/
def c7o : Order := { pendBuy with valid_until := some 5 }

/-- One-bar window dated `10` for the C7 counterexample. -/
def c7inst : Instrument := ⟨[mkCandle 10 100 100 90 100]⟩

/-- Window for the C8 counterexample: the current bar's high `111` crosses the
exit target `105`. -/
def c8inst : Instrument :=
  ⟨[mkCandle 10 100 100 90 100, mkCandle 20 100 111 95 105]⟩

/-- A pending buy too far away to activate (target `200`). -/
def c8b1 : Order :=
  { pendBuy with target_price := 200
                 order_type := OrderType.BuyOrderLong OrderDirection.Up 1 200 }

/-- A second pending far-away buy. -/
def c8b2 : Order := { c8b1 with id := 2 }

/-- A pending exit order that activates at bar 1 (target `105`). -/
def c8s : Order :=
  { pendBuy with id := 3
                 order_type := OrderType.SellOrderLong OrderDirection.Up 1 105
                 target_price := 105 }

/-- Ledger for the C8 counterexample: two pending buys and one pending exit. -/
def c8orders : List Order := [c8b1, c8b2, c8s]

/-- A long entry trade at `price_in = 100` for the trade-resolution
fixtures. -/
def c9tin : TradeIn :=
  { id := 0, index_in := 0, quantity := 1, origin_price := 100, price_in := 100
    ask := 100, spread := 0, date_in := 0, trade_type := TradeType.MarketInLong }

/-- Directional validity of an order's target price against a close price:
the property claimed for every accepted order. -/
def target_ok (close : ℚ) (o : Order) : Prop :=
  (o.order_type.direction = OrderDirection.Up → close < o.target_price) ∧
  (o.order_type.direction = OrderDirection.Down → o.target_price < close)

/-! ## Theorems -/

/-- `validate_target_price` succeeds only when the target is strictly on the
required side of the close price. -/
theorem validate_target_price_sound (direction : OrderDirection)
    (close_price target_price : ℚ) (v : Bool)
    (h : validate_target_price direction close_price target_price = some v) :
    (direction = OrderDirection.Up → close_price < target_price) ∧
    (direction = OrderDirection.Down → target_price < close_price) := by
  cases direction
  case Up =>
    refine ⟨fun _ => ?_, fun hc => OrderDirection.noConfusion hc⟩
    unfold validate_target_price at h
    by_cases hle : target_price ≤ close_price
    · rw [if_pos hle] at h; exact Option.noConfusion h
    · exact lt_of_not_le hle
  case Down =>
    refine ⟨fun hc => OrderDirection.noConfusion hc, fun _ => ?_⟩
    unfold validate_target_price at h
    by_cases hle : close_price ≤ target_price
    · rw [if_pos hle] at h; exact Option.noConfusion h
    · exact lt_of_not_le hle

/-- A successfully created order carries the requested order type and target
price. -/
theorem create_order_spec (cfg : Cfg) (index trade_id : Nat)
    (instrument : Instrument) (order_type : OrderType) (target_price quantity : ℚ)
    (o : Order)
    (h : create_order cfg index trade_id instrument order_type target_price quantity =
      some o) :
    o.order_type = order_type ∧ o.target_price = target_price := by
  unfold create_order at h
  rcases h1 : instrument.data.get? (index + 1) with _ | nc <;>
    rcases h2 : instrument.data.get? index with _ | oc <;> rw [h1, h2] at h
  · exact Option.noConfusion h
  · exact Option.noConfusion h
  · exact Option.noConfusion h
  · have h' := Option.some.inj h
    subst h'
    exact ⟨rfl, rfl⟩

/-- `prepare_plain_step` preserves directional target validity of every
accumulated order. -/
theorem prepare_plain_step_target_ok (cfg : Cfg) (index trade_id : Nat)
    (instrument : Instrument) (close : ℚ) (oty : OrderType) (d : OrderDirection)
    (q t : ℚ) (st st' : PrepareState)
    (hdir : oty.direction = d)
    (h : prepare_plain_step cfg index trade_id instrument close oty d q t st = some st')
    (hst : ∀ o ∈ st.orders, target_ok close o) :
    ∀ o ∈ st'.orders, target_ok close o := by
  unfold prepare_plain_step at h
  split at h
  · exact Option.noConfusion h
  · rename_i v hv
    have hcv := validate_target_price_sound d close t v hv
    split at h
    · split at h
      · exact Option.noConfusion h
      · rename_i ord hc
        have hspec := create_order_spec cfg index trade_id instrument oty t q ord hc
        have hord : target_ok close ord := by
          unfold target_ok
          rw [hspec.1, hdir, hspec.2]
          exact hcv
        split at h <;>
          (have h' := Option.some.inj h; subst h') <;>
          · intro o hmem
            rcases List.mem_append.mp hmem with hmem' | hmem'
            · exact hst o hmem'
            · rw [List.mem_singleton.mp hmem']
              exact hord
    · have h' := Option.some.inj h
      subst h'
      exact hst

/-- `prepare_stop_step` preserves directional target validity of every
accumulated order. -/
theorem prepare_stop_step_target_ok (slTarget : ℚ → ℚ) (cfg : Cfg)
    (index trade_id : Nat) (instrument : Instrument) (pricing : Pricing)
    (trade_type : TradeType) (close : ℚ) (d : OrderDirection) (k : StopLossType)
    (st st' : PrepareState)
    (h : prepare_stop_step slTarget cfg index trade_id instrument pricing trade_type
      close d k st = some st')
    (hst : ∀ o ∈ st.orders, target_ok close o) :
    ∀ o ∈ st'.orders, target_ok close o := by
  unfold prepare_stop_step at h
  split at h
  · exact Option.noConfusion h
  · rename_i tp htp
    split at h
    · exact Option.noConfusion h
    · rename_i sl hc
      split at h
      · exact Option.noConfusion h
      · rename_i v hv
        have hcv := validate_target_price_sound d close sl.target_price v hv
        have hspec := create_order_spec cfg index trade_id instrument
          (OrderType.StopLoss d k) (slTarget tp) 0 sl hc
        split at h
        · have h' := Option.some.inj h
          subst h'
          intro o hmem
          rcases List.mem_append.mp hmem with hmem' | hmem'
          · exact hst o hmem'
          · rw [List.mem_singleton.mp hmem']
            unfold target_ok
            rw [hspec.1]
            exact hcv
        · have h' := Option.some.inj h
          subst h'
          exact hst

/-- `prepare_one` preserves directional target validity. -/
theorem prepare_one_target_ok (slTarget : ℚ → ℚ) (cfg : Cfg) (index trade_id : Nat)
    (instrument : Instrument) (pricing : Pricing) (trade_type : TradeType)
    (close : ℚ) (oty : OrderType) (st st' : PrepareState)
    (h : prepare_one slTarget cfg index trade_id instrument pricing trade_type close
      oty st = some st')
    (hst : ∀ o ∈ st.orders, target_ok close o) :
    ∀ o ∈ st'.orders, target_ok close o := by
  rcases oty with ⟨d, q, t⟩ | ⟨d, q, t⟩ | ⟨d, q, t⟩ | ⟨d, q, t⟩ | ⟨d, q, t⟩ | ⟨d, q, t⟩ | ⟨d, k⟩
  case BuyOrderLong =>
    exact prepare_plain_step_target_ok cfg index trade_id instrument close
      (OrderType.BuyOrderLong d q t) d q t st st' rfl h hst
  case BuyOrderShort =>
    exact prepare_plain_step_target_ok cfg index trade_id instrument close
      (OrderType.BuyOrderShort d q t) d q t st st' rfl h hst
  case SellOrderLong =>
    exact prepare_plain_step_target_ok cfg index trade_id instrument close
      (OrderType.SellOrderLong d q t) d q t st st' rfl h hst
  case SellOrderShort =>
    exact prepare_plain_step_target_ok cfg index trade_id instrument close
      (OrderType.SellOrderShort d q t) d q t st st' rfl h hst
  case TakeProfitLong =>
    exact prepare_plain_step_target_ok cfg index trade_id instrument close
      (OrderType.TakeProfitLong d q t) d q t st st' rfl h hst
  case TakeProfitShort =>
    exact prepare_plain_step_target_ok cfg index trade_id instrument close
      (OrderType.TakeProfitShort d q t) d q t st st' rfl h hst
  case StopLoss =>
    exact prepare_stop_step_target_ok slTarget cfg index trade_id instrument pricing
      trade_type close d k st st' h hst

/-- The `prepare_orders` loop preserves directional target validity. -/
theorem prepare_orders_loop_target_ok (slTarget : ℚ → ℚ) (cfg : Cfg)
    (index trade_id : Nat) (instrument : Instrument) (pricing : Pricing)
    (trade_type : TradeType) (close : ℚ) :
    ∀ (otys : List OrderType) (st st' : PrepareState),
      prepare_orders_loop slTarget cfg index trade_id instrument pricing trade_type
        close otys st = some st' →
      (∀ o ∈ st.orders, target_ok close o) → ∀ o ∈ st'.orders, target_ok close o := by
  intro otys
  induction otys with
  | nil =>
    intro st st' h hst
    have h' := Option.some.inj h
    subst h'
    exact hst
  | cons oty rest ih =>
    intro st st' h hst
    unfold prepare_orders_loop at h
    rcases hstep : prepare_one slTarget cfg index trade_id instrument pricing trade_type
        close oty st with _ | st1 <;> rw [hstep] at h
    · exact Option.noConfusion h
    · exact ih st1 st' h
        (prepare_one_target_ok slTarget cfg index trade_id instrument pricing trade_type
          close oty st st1 hstep hst)

/-- `stop_loss_check` returns a subset of the accumulated orders. -/
theorem stop_loss_check_subset (st : PrepareState) :
    ∀ o ∈ stop_loss_check st, o ∈ st.orders := by
  intro o hmem
  unfold stop_loss_check at hmem
  split at hmem
  · split at hmem <;> split at hmem <;> first | exact absurd hmem (List.not_mem_nil o) | exact hmem
  · exact hmem

/-- `sell_order_check` returns a subset of its input orders. -/
theorem sell_order_check_subset (trade_type : TradeType) (st : PrepareState)
    (l : List Order) : ∀ o ∈ sell_order_check trade_type st l, o ∈ l := by
  intro o hmem
  unfold sell_order_check at hmem
  split at hmem <;> split at hmem <;>
    first | exact absurd hmem (List.not_mem_nil o) | exact hmem

/-- C3: every order accepted into the batch returned by `prepare_orders` has
its target price strictly above the current bar's close when its direction is
`Up`, and strictly below it when its direction is `Down`. -/
theorem C3_accepted_target_prices (slTarget : ℚ → ℚ) (cfg : Cfg) (index : Nat)
    (instrument : Instrument) (pricing : Pricing) (trade_type : TradeType)
    (order_types : List OrderType) (res : List Order) (cur : Candle)
    (hcur : instrument.data.get? index = some cur)
    (hres : prepare_orders slTarget cfg index instrument pricing trade_type
      order_types = some res) :
    ∀ o ∈ res,
      (o.order_type.direction = OrderDirection.Up → cur.close < o.target_price) ∧
      (o.order_type.direction = OrderDirection.Down → o.target_price < cur.close) := by
  unfold prepare_orders at hres
  split at hres
  · rename_i current_candle next_candle hcur' hnxt'
    rw [hcur] at hcur'
    have hc := Option.some.inj hcur'
    subst hc
    split at hres
    · exact Option.noConfusion hres
    · rename_i st hloop
      have h' := Option.some.inj hres
      subst h'
      intro o hmem
      have hmem' := stop_loss_check_subset st o
        (sell_order_check_subset trade_type st (stop_loss_check st) o hmem)
      exact prepare_orders_loop_target_ok slTarget cfg index
        (generate_ts_id next_candle.date) instrument pricing trade_type
        cur.close order_types initPrepareState st hloop
        (by intro o' hmem''; exact absurd hmem'' (List.not_mem_nil o')) o hmem'
  · exact Option.noConfusion hres

/-- C3 (witness): the concrete `prepare_orders` run that accepts a long entry
at `110` and a stop at `120` against close `100` instantiates the claim for
the accepted entry order. -/
theorem C3_witness :
    c4inst.data.get? 0 = some c4candle ∧
    prepare_orders c4sl exCfg 0 c4inst exPricing TradeType.MarketInLong c4otys =
      some [c4buy, c4stop] ∧
    ((c4buy.order_type.direction = OrderDirection.Up →
        c4candle.close < c4buy.target_price) ∧
     (c4buy.order_type.direction = OrderDirection.Down →
        c4buy.target_price < c4candle.close)) :=
  ⟨rfl, by decide,
    C3_accepted_target_prices c4sl exCfg 0 c4inst exPricing TradeType.MarketInLong
      c4otys [c4buy, c4stop] c4candle rfl (by decide) c4buy (by decide)⟩

/-- Closed form of `order_activated` when both referenced candles exist: the
direction selects the cross-over / cross-under test, and both tests compare
the previous bar against the *current bar's own* high/low (not the target),
conjoined with the `index > index_fulfilled` guard. -/
theorem order_activated_eq (index : Nat) (order : Order) (instrument : Instrument)
    (pricing : Pricing) (cur prev : Candle)
    (hcur : instrument.data.get? index = some cur)
    (hprev : instrument.data.get? (get_prev_index index) = some prev) :
    order_activated index order instrument pricing = some
      (match order.order_type.direction with
       | OrderDirection.Up =>
         decide (order.target_price ≤ cur.high) && decide (prev.high < cur.high) &&
           decide (order.index_fulfilled < index)
       | OrderDirection.Down =>
         decide (cur.low ≤ order.target_price) && decide (cur.low < prev.low) &&
           decide (order.index_fulfilled < index)) := by
  unfold order_activated
  rw [hcur, hprev]
  rcases order with ⟨i, ti, ic, ifl, oty, st, op, tp, q, ca, ua, fa, vu⟩
  rcases oty with ⟨d, q', t'⟩ | ⟨d, q', t'⟩ | ⟨d, q', t'⟩ | ⟨d, q', t'⟩ | ⟨d, q', t'⟩ | ⟨d, q', t'⟩ | ⟨d, k⟩ <;>
    rcases d with _ | _ <;> rfl

/-- C1 (counterexample): with the previous bar's high `110` already at the
order's target `110` and the current bar's high `111`, the claim's cross-over
condition is false (the previous high was not below the target), yet
`order_activated` reports an activation — the code compares the previous high
against the current bar's high, not against the target. -/
theorem C1_counterexample :
    order_activated 1 scOrder c1Inst exPricing = some true ∧
    (c1Inst.data.get? 1).map Candle.high = some 111 ∧
    (c1Inst.data.get? 0).map Candle.high = some 110 ∧
    scOrder.target_price = 110 ∧
    spec_cross_over 110 111 110 = false := by decide

/-- C1 (amended): for every pending order, activation on a bar holds exactly
when the direction-selected cross condition holds, where the cross-over test
is: current bar's high ≥ target AND previous bar's high < *current bar's
high* AND `index > index_fulfilled` (symmetrically with lows for `Down`).
In the Scenario A data the order still activates at bar 12 and not at
bar 11. -/
theorem C1_amended (index : Nat) (order : Order) (instrument : Instrument)
    (pricing : Pricing) (cur prev : Candle)
    (hcur : instrument.data.get? index = some cur)
    (hprev : instrument.data.get? (get_prev_index index) = some prev) :
    order_activated index order instrument pricing = some
      (match order.order_type.direction with
       | OrderDirection.Up =>
         decide (order.target_price ≤ cur.high) && decide (prev.high < cur.high) &&
           decide (order.index_fulfilled < index)
       | OrderDirection.Down =>
         decide (cur.low ≤ order.target_price) && decide (cur.low < prev.low) &&
           decide (order.index_fulfilled < index)) :=
  order_activated_eq index order instrument pricing cur prev hcur hprev

/-- C1 (witness): the Scenario A data instantiates the amended claim — the
pending `Up` entry with target `110` activates at bar 12 (high `111`) and not
at bar 11 (high `105`). -/
theorem C1_amended_witness :
    scInst.data.get? 2 = some (mkCandle 30 100 111 95 102) ∧
    scInst.data.get? (get_prev_index 2) = some (mkCandle 20 100 105 95 101) ∧
    order_activated 2 scOrder scInst exPricing = some true ∧
    order_activated 1 scOrder scInst exPricing = some false :=
  ⟨rfl, rfl, by
    have h := C1_amended 2 scOrder scInst exPricing (mkCandle 30 100 111 95 102)
      (mkCandle 20 100 105 95 101) rfl rfl
    rw [h]; decide, by decide⟩

/-- C2 (counterexample): the order whose `id` is derived from its creation
bar's timestamp (`id = 20`, `index_created = 1`) activates on that very
creation bar — whose derived timestamp identifier equals (is not strictly
greater than) the order's `id` — so same-bar fills are possible. -/
theorem C2_counterexample :
    order_activated 1 scOrder c2Inst exPricing = some true ∧
    scOrder.index_created = 1 ∧
    (c2Inst.data.get? 1).map (fun c => generate_ts_id c.date) = some scOrder.id := by
  decide

/-- C2 (amended): the only bar-ordering guard in `order_activated` is
`index > order.index_fulfilled`: whenever an order activates, the bar index
is strictly greater than the order's `index_fulfilled` field (which is `0`
for a never-filled order) — the candle's derived timestamp identifier is
never compared with the order's `id`, so activation on the creation bar is
not prevented. -/
theorem C2_amended (index : Nat) (order : Order) (instrument : Instrument)
    (pricing : Pricing)
    (h : order_activated index order instrument pricing = some true) :
    order.index_fulfilled < index := by
  rcases hcur : instrument.data.get? index with _ | cur <;>
    rcases hprev : instrument.data.get? (get_prev_index index) with _ | prev
  · unfold order_activated at h; rw [hcur, hprev] at h; exact Option.noConfusion h
  · unfold order_activated at h; rw [hcur, hprev] at h; exact Option.noConfusion h
  · unfold order_activated at h; rw [hcur, hprev] at h; exact Option.noConfusion h
  · have he := order_activated_eq index order instrument pricing cur prev hcur hprev
    rw [h] at he
    have hb := (Option.some.inj he).symm
    rcases hd : order.order_type.direction with _ | _ <;> rw [hd] at hb <;>
      simp only [Bool.and_eq_true, decide_eq_true_eq] at hb <;> exact hb.2

/-- C2 (witness): the amended guard instantiated at the concrete same-bar
activation. -/
theorem C2_amended_witness :
    order_activated 1 scOrder c2Inst exPricing = some true ∧
    scOrder.index_fulfilled < 1 :=
  ⟨by decide, C2_amended 1 scOrder c2Inst exPricing (by decide)⟩

/-- C4 (counterexample): the batch pairing the long entry
`BuyOrderLong(Up, 1, 110)` with the stop-loss `StopLoss(Up, _)` whose computed
target is `120` passes `prepare_orders` intact even though the stop target is
not on the loss side of the entry target (`110 ≤ 120`): the Rust check keys on
the stop-loss *direction*, not on whether the entry is long. -/
theorem C4_counterexample :
    prepare_orders c4sl exCfg 0 c4inst exPricing TradeType.MarketInLong c4otys =
      some [c4buy, c4stop] ∧
    TradeType.MarketInLong.is_long = true ∧
    c4buy.order_type.is_entry = true ∧
    c4stop.order_type.is_stop = true ∧
    c4buy.target_price ≤ c4stop.target_price := by decide

/-- C4 (amended): the all-or-nothing stop-loss consistency check is keyed on
the stop-loss *direction* and the tracked (last accepted) entry target: when
the loop ends with a stop-loss flagged and — for direction `Down` — the stop
target at or above a positive entry target, or — for direction `Up` — the
stop target at or below a positive entry target, `prepare_orders` returns the
empty batch. -/
theorem C4_amended (slTarget : ℚ → ℚ) (cfg : Cfg) (index : Nat)
    (instrument : Instrument) (pricing : Pricing) (trade_type : TradeType)
    (order_types : List OrderType) (cur nxt : Candle) (st : PrepareState)
    (hcur : instrument.data.get? index = some cur)
    (hnxt : instrument.data.get? (index + 1) = some nxt)
    (hloop : prepare_orders_loop slTarget cfg index (generate_ts_id nxt.date)
      instrument pricing trade_type cur.close order_types initPrepareState = some st)
    (hsl : st.is_stop_loss = true)
    (hwrong : match st.stop_loss_direction with
      | OrderDirection.Down =>
        st.buy_order_target ≤ st.stop_order_target ∧ 0 < st.buy_order_target
      | OrderDirection.Up =>
        st.stop_order_target ≤ st.buy_order_target ∧ 0 < st.buy_order_target) :
    prepare_orders slTarget cfg index instrument pricing trade_type order_types =
      some [] := by
  unfold prepare_orders
  rw [hcur, hnxt]
  dsimp only
  rw [hloop]
  dsimp only
  have h1 : stop_loss_check st = [] := by
    unfold stop_loss_check
    rw [hsl]
    rw [if_pos rfl]
    cases hd : st.stop_loss_direction <;> rw [hd] at hwrong <;> dsimp only at hwrong <;>
      dsimp only <;> rw [if_pos hwrong]
  have h2 : sell_order_check trade_type st [] = [] := by
    unfold sell_order_check
    cases h3 : trade_type.is_long <;> dsimp only <;> split <;> rfl
  rw [h1, h2]

/-- C4 (witness): the amended discard instantiated concretely — a `Down`
entry at `95` paired with a `Down` stop at `97` (stop at or above the entry
target) makes `prepare_orders` return the empty batch. -/
theorem C4_amended_witness :
    prepare_orders_loop w4sl exCfg 0 (generate_ts_id c4candle.date) c4inst exPricing
      TradeType.MarketInLong c4candle.close w4otys initPrepareState = some w4st ∧
    w4st.is_stop_loss = true ∧
    w4st.stop_loss_direction = OrderDirection.Down ∧
    w4st.buy_order_target ≤ w4st.stop_order_target ∧
    0 < w4st.buy_order_target ∧
    prepare_orders w4sl exCfg 0 c4inst exPricing TradeType.MarketInLong w4otys =
      some [] :=
  ⟨by decide, by decide, by decide, by decide, by decide,
    C4_amended w4sl exCfg 0 c4inst exPricing TradeType.MarketInLong w4otys c4candle
      c4candle w4st rfl rfl (by decide) (by decide)
      (show w4st.buy_order_target ≤ w4st.stop_order_target ∧ 0 < w4st.buy_order_target
        by decide)⟩

/-- C5 (counterexample): with `max_pending_orders = 1`, one order already
pending and one more passing the per-category filter — so that admitted plus
already-pending exceeds the ceiling — `add_pending` still appends the batch
instead of returning the ledger unchanged: the Rust code compares only the
filtered batch's own length against `max_pending_orders`. -/
theorem C5_counterexample :
    c5cfg.max_pending_orders <
      (get_pending c5cfg [pendBuy]).length +
        (add_pending_result c5cfg [pendBuy] [pendStop]).length ∧
    add_pending c5cfg [pendBuy] [pendStop] = [pendBuy, pendStop] ∧
    [pendBuy, pendStop] ≠ [pendBuy] := by decide

/-- C5 (amended): the overflow test is on the filtered batch alone — whenever
the number of proposed orders that pass the per-category filter exceeds
`max_pending_orders` by itself, `add_pending` returns the existing ledger
unchanged (no partial admission). -/
theorem C5_amended (cfg : Cfg) (orders new_orders : List Order)
    (h : cfg.max_pending_orders < (add_pending_result cfg orders new_orders).length) :
    add_pending cfg orders new_orders = orders := by
  unfold add_pending
  rw [if_neg (by omega)]

/-- C5 (witness): with `max_pending_orders = 0` and a one-order batch that
passes the filter, `add_pending` leaves the empty ledger unchanged. -/
theorem C5_amended_witness :
    c5wcfg.max_pending_orders < (add_pending_result c5wcfg [] [pendStop]).length ∧
    add_pending c5wcfg [] [pendStop] = [] :=
  ⟨by decide, C5_amended c5wcfg [] [pendStop] (by decide)⟩

/-- C6 (counterexample): a batch containing two pending buy orders is admitted
wholesale against `max_buy_orders = 1`, because the per-category counts are
computed once from the existing ledger and not updated while the batch is
filtered — the pending-buy count after `add_pending` exceeds the ceiling. -/
theorem C6_counterexample :
    c6cfg.max_buy_orders <
      (get_num_pending_orders c6cfg (add_pending c6cfg [] c6new)).1 := by decide

/-- Appending to the ledger cannot raise a recency-window count by more than
the whole appended batch's count. -/
theorem countP_window_append (M : Nat) (p : Order → Bool) (l₁ l₂ : List Order) :
    ((l₁ ++ l₂).reverse.take M).countP p ≤
      (l₁.reverse.take M).countP p + l₂.countP p := by
  rw [List.reverse_append, List.take_append_eq_append_take, List.countP_append]
  have h1 : (l₂.reverse.take M).countP p ≤ l₂.countP p := by
    calc (l₂.reverse.take M).countP p ≤ l₂.reverse.countP p :=
          (List.take_sublist M l₂.reverse).countP_le p
      _ = l₂.countP p := by simp
  have h2 : (l₁.reverse.take (M - l₂.reverse.length)).countP p ≤
      (l₁.reverse.take M).countP p := by
    have h3 : l₁.reverse.take (M - l₂.reverse.length) =
        (l₁.reverse.take M).take (M - l₂.reverse.length) := by
      rw [List.take_take, Nat.min_eq_left (Nat.sub_le M _)]
    rw [h3]
    exact (List.take_sublist _ _).countP_le p
  omega

/-- The category counts as window `countP`s. -/
theorem get_num_counts (cfg : Cfg) (l : List Order) :
    get_num_pending_orders cfg l =
      ((l.reverse.take cfg.max_pending_orders).countP
          (fun o => o.order_type.is_entry && decide (o.status = OrderStatus.Pending)),
       (l.reverse.take cfg.max_pending_orders).countP
          (fun o => o.order_type.is_exit && decide (o.status = OrderStatus.Pending)),
       (l.reverse.take cfg.max_pending_orders).countP
          (fun o => o.order_type.is_stop && decide (o.status = OrderStatus.Pending))) := by
  unfold get_num_pending_orders pending_window
  rw [List.countP_filter, List.countP_filter, List.countP_filter]

/-- Every order admitted by the `add_pending` filter is a pending member of
the proposed batch whose category count over the existing ledger is strictly
below its ceiling. -/
theorem mem_add_pending_result (cfg : Cfg) (orders new_orders : List Order)
    (a : Order) (h : a ∈ add_pending_result cfg orders new_orders) :
    a ∈ new_orders ∧ a.status = OrderStatus.Pending ∧
    (a.order_type.is_entry = true →
      (get_num_pending_orders cfg orders).1 < cfg.max_buy_orders) ∧
    (a.order_type.is_exit = true →
      (get_num_pending_orders cfg orders).2.1 < cfg.max_sell_orders) ∧
    (a.order_type.is_stop = true →
      (get_num_pending_orders cfg orders).2.2 < cfg.max_stop_losses) := by
  unfold add_pending_result at h
  have h1 := List.mem_filter.mp h
  have h2 := List.mem_filter.mp h1.1
  refine ⟨h2.1, of_decide_eq_true h2.2, ?_, ?_, ?_⟩ <;>
  · intro hcat
    have hg := h1.2
    rcases ho : a.order_type with ⟨d, q, t⟩ | ⟨d, q, t⟩ | ⟨d, q, t⟩ | ⟨d, q, t⟩ |
        ⟨d, q, t⟩ | ⟨d, q, t⟩ | ⟨d, k⟩ <;> rw [ho] at hcat hg <;>
      simp [OrderType.is_entry, OrderType.is_exit, OrderType.is_stop] at hcat <;>
      simpa using hg

/-- The admitted batch is a sublist of the proposed batch. -/
theorem add_pending_result_sublist (cfg : Cfg) (orders new_orders : List Order) :
    List.Sublist (add_pending_result cfg orders new_orders) new_orders := by
  unfold add_pending_result
  exact (List.filter_sublist _).trans (List.filter_sublist _)

/-- Generic per-category ceiling preservation for `add_pending`: if the
existing window count is within `m`, the proposed batch carries at most one
order of the category, and every admitted order of the category required the
existing count to be strictly below `m`, then the window count after
`add_pending` stays within `m`. -/
theorem add_pending_cat_le (cfg : Cfg) (orders new_orders : List Order)
    (cat : OrderType → Bool) (m : Nat)
    (hpre : ((orders.reverse.take cfg.max_pending_orders).countP
        (fun o => cat o.order_type && decide (o.status = OrderStatus.Pending))) ≤ m)
    (hnew : new_orders.countP (fun o => cat o.order_type) ≤ 1)
    (hgate : ∀ a ∈ add_pending_result cfg orders new_orders, cat a.order_type = true →
      ((orders.reverse.take cfg.max_pending_orders).countP
        (fun o => cat o.order_type && decide (o.status = OrderStatus.Pending))) < m) :
    (((add_pending cfg orders new_orders).reverse.take cfg.max_pending_orders).countP
        (fun o => cat o.order_type && decide (o.status = OrderStatus.Pending))) ≤ m := by
  unfold add_pending
  split
  · have hw := countP_window_append cfg.max_pending_orders
      (fun o => cat o.order_type && decide (o.status = OrderStatus.Pending)) orders
      (add_pending_result cfg orders new_orders)
    have hAle : (add_pending_result cfg orders new_orders).countP
        (fun o => cat o.order_type && decide (o.status = OrderStatus.Pending)) ≤
        (add_pending_result cfg orders new_orders).countP (fun o => cat o.order_type) :=
      List.countP_mono_left (fun x _ hx => by
        simp only [Bool.and_eq_true] at hx
        exact hx.1)
    have hAnew : (add_pending_result cfg orders new_orders).countP
        (fun o => cat o.order_type) ≤ 1 :=
      le_trans ((add_pending_result_sublist cfg orders new_orders).countP_le _) hnew
    by_cases hz :
        (add_pending_result cfg orders new_orders).countP (fun o => cat o.order_type) = 0
    · omega
    · have hpos : 0 <
          (add_pending_result cfg orders new_orders).countP (fun o => cat o.order_type) :=
        Nat.pos_of_ne_zero hz
      obtain ⟨a, haA, hacat⟩ := List.countP_pos_iff.mp hpos
      have hlt := hgate a haA hacat
      omega
  · exact hpre

/-- C6 (amended): each order is admitted by `add_pending` only while its
category's count over the existing ledger is strictly below its ceiling;
consequently, when the existing per-category window counts are within the
ceilings and the proposed batch contains at most one order of each category,
the counts after `add_pending` still do not exceed the ceilings. -/
theorem C6_amended (cfg : Cfg) (orders new_orders : List Order)
    (hb : (get_num_pending_orders cfg orders).1 ≤ cfg.max_buy_orders)
    (hs : (get_num_pending_orders cfg orders).2.1 ≤ cfg.max_sell_orders)
    (hst : (get_num_pending_orders cfg orders).2.2 ≤ cfg.max_stop_losses)
    (nb : new_orders.countP (fun o => o.order_type.is_entry) ≤ 1)
    (ns : new_orders.countP (fun o => o.order_type.is_exit) ≤ 1)
    (nst : new_orders.countP (fun o => o.order_type.is_stop) ≤ 1) :
    (get_num_pending_orders cfg (add_pending cfg orders new_orders)).1 ≤
        cfg.max_buy_orders ∧
    (get_num_pending_orders cfg (add_pending cfg orders new_orders)).2.1 ≤
        cfg.max_sell_orders ∧
    (get_num_pending_orders cfg (add_pending cfg orders new_orders)).2.2 ≤
        cfg.max_stop_losses := by
  rw [get_num_counts] at hb hs hst
  rw [get_num_counts]
  refine ⟨?_, ?_, ?_⟩
  · exact add_pending_cat_le cfg orders new_orders OrderType.is_entry cfg.max_buy_orders
      hb nb (fun a ha hcat => by
        have := (mem_add_pending_result cfg orders new_orders a ha).2.2.1 hcat
        rw [get_num_counts] at this
        exact this)
  · exact add_pending_cat_le cfg orders new_orders OrderType.is_exit cfg.max_sell_orders
      hs ns (fun a ha hcat => by
        have := (mem_add_pending_result cfg orders new_orders a ha).2.2.2.1 hcat
        rw [get_num_counts] at this
        exact this)
  · exact add_pending_cat_le cfg orders new_orders OrderType.is_stop cfg.max_stop_losses
      hst nst (fun a ha hcat => by
        have := (mem_add_pending_result cfg orders new_orders a ha).2.2.2.2 hcat
        rw [get_num_counts] at this
        exact this)

/-- C6 (witness): the amended bound instantiated at a one-buy batch admitted
into an empty ledger. -/
theorem C6_amended_witness :
    (get_num_pending_orders c6cfg []).1 ≤ c6cfg.max_buy_orders ∧
    ([pendBuy].countP (fun o => o.order_type.is_entry) ≤ 1) ∧
    (get_num_pending_orders c6cfg (add_pending c6cfg [] [pendBuy])).1 ≤
      c6cfg.max_buy_orders :=
  ⟨by decide, by decide,
    (C6_amended c6cfg [] [pendBuy] (by decide) (by decide) (by decide) (by decide)
      (by decide) (by decide)).1⟩

/-- A successful `mapMo` run is the pointwise image of its input: same length
and, at every index, the image of the input element. -/
theorem mapMo_spec (f : Order → Option Order) :
    ∀ (l : List Order) (res : List Order), mapMo f l = some res →
      res.length = l.length ∧ ∀ i a, l.get? i = some a → res.get? i = f a := by
  intro l
  induction l with
  | nil =>
    intro res h
    have h' := Option.some.inj h
    subst h'
    exact ⟨rfl, fun i a ha => by simp at ha⟩
  | cons a l ih =>
    intro res h
    unfold mapMo at h
    rcases hfa : f a with _ | b <;> rcases hl : mapMo f l with _ | bs <;>
      rw [hfa, hl] at h
    · exact Option.noConfusion h
    · exact Option.noConfusion h
    · exact Option.noConfusion h
    · have h' := Option.some.inj h
      subst h'
      obtain ⟨hlen, hspec⟩ := ih bs hl
      refine ⟨by simp [hlen], fun i a' hget => ?_⟩
      cases i with
      | zero =>
        simp only [List.get?_cons_zero] at hget ⊢
        have ha := Option.some.inj hget
        subst ha
        exact hfa.symm
      | succ i =>
        simp only [List.get?_cons_succ] at hget ⊢
        exact hspec i a' hget

/-- `cancel_pending_step` on an expired pending order yields the canceled
order. -/
theorem cancel_pending_step_expired (now cd : Timestamp) (o : Order)
    (vu : Timestamp) (hvu : o.valid_until = some vu) (hle : vu ≤ cd)
    (hpend : o.status = OrderStatus.Pending) :
    cancel_pending_step now cd o = some (o.cancel_order now) := by
  unfold cancel_pending_step
  rw [hvu]
  dsimp only
  rw [if_pos ⟨hle, hpend⟩]

/-- C7 (counterexample): the expiry step applied to the backtest ledger does
not remove the expired pending order — the order stays in the ledger, merely
marked `Canceled` (the physical-removal code in the Rust source is commented
out). -/
theorem C7_counterexample :
    cancel_all_pending_orders 99 0 c7inst [c7o] = some [c7o.cancel_order 99] ∧
    (c7o.cancel_order 99).status = OrderStatus.Canceled ∧
    (c7o.cancel_order 99).updated_at = some 99 ∧
    ([c7o.cancel_order 99] : List Order).length = 1 := by decide

/-- C7 (amended): in both Backtest (`cancel_all_pending_orders`, dated from
the bar at `index`) and Live (`cancel_all_bot_pending_orders`, dated from the
wall clock), an expired Pending order is marked `Canceled` with a non-null
`updated_at`, remains at its position, and the ledger's length is unchanged —
no physical removal happens in either mode. -/
theorem C7_amended :
    (∀ (now : Timestamp) (index : Nat) (instrument : Instrument)
        (orders res : List Order) (i : Nat) (o : Order) (vu : Timestamp)
        (cur : Candle),
      instrument.data.get? index = some cur →
      cancel_all_pending_orders now index instrument orders = some res →
      orders.get? i = some o → o.status = OrderStatus.Pending →
      o.valid_until = some vu → vu < cur.date →
      res.length = orders.length ∧ res.get? i = some (o.cancel_order now)) ∧
    (∀ (now : Timestamp) (orders res : List Order) (i : Nat) (o : Order)
        (vu : Timestamp),
      cancel_all_bot_pending_orders now orders = some res →
      orders.get? i = some o → o.status = OrderStatus.Pending →
      o.valid_until = some vu → vu < now →
      res.length = orders.length ∧ res.get? i = some (o.cancel_order now)) := by
  constructor
  · intro now index instrument orders res i o vu cur hcur h hget hpend hvu hlt
    unfold cancel_all_pending_orders at h
    rw [hcur] at h
    dsimp only at h
    obtain ⟨hlen, hspec⟩ := mapMo_spec (cancel_pending_step now cur.date) orders res h
    refine ⟨hlen, ?_⟩
    rw [hspec i o hget]
    exact cancel_pending_step_expired now cur.date o vu hvu (le_of_lt hlt) hpend
  · intro now orders res i o vu h hget hpend hvu hlt
    unfold cancel_all_bot_pending_orders at h
    obtain ⟨hlen, hspec⟩ := mapMo_spec (cancel_pending_step now now) orders res h
    refine ⟨hlen, ?_⟩
    rw [hspec i o hget]
    exact cancel_pending_step_expired now now o vu hvu (le_of_lt hlt) hpend

/-- C7 (witness): the amended statement instantiated at a one-order ledger
with an expired pending order, in both modes. -/
theorem C7_amended_witness :
    (cancel_all_pending_orders 99 0 c7inst [c7o] = some [c7o.cancel_order 99] ∧
      ([c7o.cancel_order 99] : List Order).length = ([c7o] : List Order).length ∧
      ([c7o.cancel_order 99] : List Order).get? 0 = some (c7o.cancel_order 99)) ∧
    (cancel_all_bot_pending_orders 99 [c7o] = some [c7o.cancel_order 99] ∧
      ([c7o.cancel_order 99] : List Order).length = ([c7o] : List Order).length ∧
      ([c7o.cancel_order 99] : List Order).get? 0 = some (c7o.cancel_order 99)) :=
  ⟨⟨by decide,
    (C7_amended.1 99 0 c7inst [c7o] [c7o.cancel_order 99] 0 c7o 5
      (mkCandle 10 100 100 90 100) rfl (by decide) rfl (by decide) (by decide)
      (by decide)).1 ▸ ⟨rfl, (C7_amended.1 99 0 c7inst [c7o] [c7o.cancel_order 99] 0 c7o 5
      (mkCandle 10 100 100 90 100) rfl (by decide) rfl (by decide) (by decide)
      (by decide)).2⟩⟩,
   ⟨by decide,
    ⟨rfl, (C7_amended.2 99 [c7o] [c7o.cancel_order 99] 0 c7o 5 (by decide) rfl
      (by decide) (by decide) (by decide)).2⟩⟩⟩

/-- C8 (counterexample): with two pending buy orders against
`max_buy_orders = 1`, the pending-buy count is *not* strictly below the
ceiling, yet the resolved `MarketOutOrder` is not suppressed — the Rust gate
only fires when the count compares `Equal` to the ceiling. -/
theorem C8_counterexample :
    resolve_active_orders c6cfg 1 c8inst c8orders exPricing =
      some (Position.MarketOutOrder c8s) ∧
    ¬((get_num_pending_orders c6cfg c8orders).1 < c6cfg.max_buy_orders) := by decide

/-- C8 (amended): a resolved `MarketOutOrder` is suppressed back to
`Position.None` exactly when the pending-buy count *equals*
`max_buy_orders`; every other position (including when the count exceeds the
ceiling) passes through unchanged. -/
theorem C8_amended (cfg : Cfg) (index : Nat) (instrument : Instrument)
    (orders : List Order) (pricing : Pricing) (pos : Position)
    (hloop : active_orders_loop index instrument pricing orders Position.None =
      some pos) :
    resolve_active_orders cfg index instrument orders pricing = some
      (match pos with
       | Position.MarketOutOrder o =>
         if (get_num_pending_orders cfg orders).1 = cfg.max_buy_orders then
           Position.None
         else Position.MarketOutOrder o
       | p => p) := by
  unfold resolve_active_orders
  split
  · rename_i hl
    rw [hloop] at hl
    exact Option.noConfusion hl
  · rename_i order_position hl
    rw [hloop] at hl
    have h2 := Option.some.inj hl
    subst h2
    cases pos
    case MarketOutOrder o =>
      unfold has_executed_buy_order
      dsimp only
      by_cases heq : (get_num_pending_orders cfg orders).1 = cfg.max_buy_orders
      · simp [heq]
      · simp [heq]
    all_goals rfl

/-- C8 (witness): the amended gate instantiated where the pending-buy count
(2) differs from the ceiling (1): the `MarketOutOrder` passes through. -/
theorem C8_amended_witness :
    active_orders_loop 1 c8inst exPricing c8orders Position.None =
      some (Position.MarketOutOrder c8s) ∧
    resolve_active_orders c6cfg 1 c8inst c8orders exPricing =
      some (Position.MarketOutOrder c8s) :=
  ⟨by decide, by
    have h := C8_amended c6cfg 1 c8inst c8orders exPricing
      (Position.MarketOutOrder c8s) (by decide)
    rw [h]
    decide⟩

/-- C9: with `non_profitable_outs = false` and non-positive computed profit,
`resolve_trade_out` yields no trade for every non-stop-loss exit trade type;
and a stop-loss exit is never suppressed — whenever the function returns a
result for a stop-loss trade type, that result is a realized `TradeOut`,
regardless of profit sign. -/
theorem C9_non_profitable_suppression :
    (∀ (cfg : Cfg) (index : Nat) (instrument : Instrument) (pricing : Pricing)
        (trade_in : TradeIn) (trade_type : TradeType) (order : Option Order) (p : ℚ),
      cfg.non_profitable_outs = false →
      trade_type.is_exit = true → trade_type.is_stop = false →
      trade_out_profit cfg index instrument pricing trade_in trade_type order = some p →
      p ≤ 0 →
      resolve_trade_out cfg index instrument pricing trade_in trade_type order =
        some TradeResult.None) ∧
    (∀ (cfg : Cfg) (index : Nat) (instrument : Instrument) (pricing : Pricing)
        (trade_in : TradeIn) (trade_type : TradeType) (order : Option Order)
        (res : TradeResult),
      trade_type.is_stop = true →
      resolve_trade_out cfg index instrument pricing trade_in trade_type order =
        some res →
      res.is_trade_out = true) := by
  constructor
  · intro cfg index instrument pricing trade_in trade_type order p hnpo hexit hstop
      hprofit hple
    unfold trade_out_profit at hprofit
    rcases hpr : trade_out_prices cfg index instrument pricing trade_in trade_type order
      with _ | prices <;> rw [hpr] at hprofit
    · exact Option.noConfusion hprofit
    · simp only [Option.map_some'] at hprofit
      have hp := Option.some.inj hprofit
      have hcur : ∃ cur,
          instrument.data.get?
            (calculate_trade_index index order cfg.execution_mode) = some cur := by
        unfold trade_out_prices at hpr
        split at hpr
        · exact Option.noConfusion hpr
        · rename_i cur hcur'
          exact ⟨cur, hcur'⟩
      obtain ⟨cur, hcur⟩ := hcur
      unfold resolve_trade_out
      rw [hcur]
      dsimp only
      rw [hpr]
      dsimp only
      have hgate : trade_out_gate cfg trade_in trade_type prices = false := by
        unfold trade_out_gate
        rw [hnpo]
        dsimp only
        rw [hstop, hp]
        simp only [Bool.or_false]
        exact decide_eq_false (not_lt.mpr hple)
      rw [hgate]
      rfl
  · intro cfg index instrument pricing trade_in trade_type order res hstop hres
    unfold resolve_trade_out at hres
    split at hres
    · exact Option.noConfusion hres
    · rename_i cur hcur
      split at hres
      · exact Option.noConfusion hres
      · rename_i prices hpr
        have hgate : trade_out_gate cfg trade_in trade_type prices = true := by
          unfold trade_out_gate
          cases cfg.non_profitable_outs <;> dsimp only <;> rw [hstop] <;> simp
        rw [hgate] at hres
        rw [if_pos rfl] at hres
        split at hres
        · exact Option.noConfusion hres
        · rename_i d hd
          have h' := Option.some.inj hres
          subst h'
          rfl

/-- C9 (witness): the suppression branch instantiated concretely — a long
exit with computed profit `0` under `non_profitable_outs = false` returns no
trade. -/
theorem C9_witness :
    exCfg.non_profitable_outs = false ∧
    TradeType.MarketOutLong.is_exit = true ∧
    TradeType.MarketOutLong.is_stop = false ∧
    trade_out_profit exCfg 0 scInst exPricing c9tin TradeType.MarketOutLong none =
      some ((100 : ℚ) - 100) ∧
    ((100 : ℚ) - 100) ≤ 0 ∧
    resolve_trade_out exCfg 0 scInst exPricing c9tin TradeType.MarketOutLong none =
      some TradeResult.None :=
  ⟨rfl, rfl, rfl, rfl, by norm_num,
    C9_non_profitable_suppression.1 exCfg 0 scInst exPricing c9tin
      TradeType.MarketOutLong none ((100 : ℚ) - 100) rfl rfl rfl rfl (by norm_num)⟩

/-- C10: for a stop-loss trade type with no triggering order supplied,
`resolve_trade_out` hits the `unwrap` panic on the order (modelled as `none`)
— supplying the triggering order is a precondition for stop-loss exits.  The
candle hypothesis pins the panic on the order unwrap rather than on a missing
candle. -/
theorem C10_stop_requires_order (cfg : Cfg) (index : Nat) (instrument : Instrument)
    (pricing : Pricing) (trade_in : TradeIn) (trade_type : TradeType) (cur : Candle)
    (hstop : trade_type.is_stop = true)
    (hcur : instrument.data.get?
      (calculate_trade_index index none cfg.execution_mode) = some cur) :
    resolve_trade_out cfg index instrument pricing trade_in trade_type none = none := by
  have hpr : trade_out_prices cfg index instrument pricing trade_in trade_type none =
      none := by
    unfold trade_out_prices
    rw [hcur]
    dsimp only
    have hscp : stop_close_price trade_type none cur = none := by
      unfold stop_close_price
      cases trade_type <;> simp [TradeType.is_stop] at hstop <;> rfl
    rw [hscp]
  unfold resolve_trade_out
  rw [hcur]
  dsimp only
  rw [hpr]

/-- C10 (witness): the stop-loss-without-order panic instantiated
concretely. -/
theorem C10_witness :
    TradeType.StopLossLong.is_stop = true ∧
    scInst.data.get? (calculate_trade_index 0 none exCfg.execution_mode) =
      some (mkCandle 20 100 105 95 101) ∧
    resolve_trade_out exCfg 0 scInst exPricing c9tin TradeType.StopLossLong none =
      none :=
  ⟨rfl, by decide,
    C10_stop_requires_order exCfg 0 scInst exPricing c9tin TradeType.StopLossLong
      (mkCandle 20 100 105 95 101) rfl (by decide)⟩

end RsAlgo
